import Mathlib

/-!
# TrailerTech: verification of the folder-classification, metadata-resolution
# and trailer-acquisition logic

Shallow embedding of `src/media/movieFolder.py` and `src/TrailerTech.py`.

Python strings are modelled as `String`, `None`-able strings as
`Option String`, file sizes and probed durations as `Nat`, and Python
exceptions that can escape the embedded code as an explicit `Except PyExn`.
Regular-expression checks (`re.match`, which anchors at the start of the
string but not at the end) are embedded as decidable predicates on the
specific patterns appearing in the source.
-/

deriving instance DecidableEq for Except

namespace TrailerTech

/-- Python exceptions that the embedded code can raise. -/
inductive PyExn
  | typeError
  | attributeError
  | keyError
  deriving DecidableEq, Repr

/-- `MIN_MOVIE_DURATION = 600` (movieFolder.py line 13). -/
def MIN_MOVIE_DURATION : Nat := 600

/-- `VIDEO_EXTENSIONS` (movieFolder.py line 14). -/
def VIDEO_EXTENSIONS : List String :=
  [".mkv", ".iso", ".wmv", ".avi", ".mp4", ".m4v", ".img", ".divx", ".mov", ".flv", ".m2ts"]

/-- `NFO_EXTENSIONS` (movieFolder.py line 15). -/
def NFO_EXTENSIONS : List String := [".nfo", ".xml"]

/-- `ID_TAGS` (movieFolder.py line 16). -/
def ID_TAGS : List String :=
  ["imdb", "tmdb", "imdbid", "tmdbid", "tmdb_id", "imdb_id", "id"]

/-- Truthiness of a Python `str`-or-`None` value: `None` and the empty
string are falsy, every other string is truthy. -/
def truthy : Option String → Bool
  | none => false
  | some s => s ≠ ""

/-- Python `str.isdigit` for the ASCII strings relevant here: non-empty and
all characters are digits. -/
def pyIsDigit (s : String) : Bool :=
  !s.toList.isEmpty && s.toList.all Char.isDigit

/-- Lower-case a string character-wise (Python `str.lower` on ASCII). -/
def toLowerStr (s : String) : String :=
  String.mk (s.toList.map Char.toLower)

/-- `sub.isSublistRun cs`: Python `sub in cs` substring containment on
character lists. -/
def listContainsSub (sub : List Char) : List Char → Bool
  | [] => sub.isEmpty
  | c :: rest => sub.isPrefixOf (c :: rest) || listContainsSub sub rest

/-- Python `sub in s` substring containment. -/
def strContains (s sub : String) : Bool :=
  listContainsSub sub.toList s.toList

/-- Truthiness of `re.match(YEAR_PATTERN, s)` with
`YEAR_PATTERN`, the raw pattern of four digits, (movieFolder.py line 19): `re.match` anchors only
at the start, so it is truthy iff the string has at least four characters
and its first four characters are digits. -/
def yearMatch (s : String) : Bool :=
  decide (4 ≤ s.toList.length) && (s.toList.take 4).all Char.isDigit

/-- Helper for `imdbMatch`: after the leading `"ev"`, a run of `k` digits,
then a slash, then four digits (the optional `(-\d)?` tail never affects
whether a match exists). -/
def evSlashTail (cs : List Char) (k : Nat) : Bool :=
  decide (k + 5 ≤ cs.length) &&
  (cs.take k).all Char.isDigit &&
  decide (cs.getD k ' ' = '/') &&
  ((cs.drop (k + 1)).take 4).all Char.isDigit

/-- Truthiness of `re.match(IMDB_ID_PATTERN, s)` with
`IMDB_ID_PATTERN` (ev, 7-8 digits, slash, 4 digits, optional dash digit; or one of five two-letter tags and 7-8 digits)
(movieFolder.py line 17): some prefix of `s` lies in the pattern language;
the first alternative needs `ev`, 7 or 8 digits, `/`, 4 digits; the second
needs one of the five two-letter tags followed by at least 7 digits. -/
def imdbMatch (s : String) : Bool :=
  let cs := s.toList
  (match cs with
   | 'e' :: 'v' :: rest => evSlashTail rest 7 || evSlashTail rest 8
   | _ => false) ||
  (decide (9 ≤ cs.length) &&
   ["ch", "co", "ev", "nm", "tt"].contains (String.mk (cs.take 2)) &&
   ((cs.drop 2).take 7).all Char.isDigit)

/-- Truthiness of `re.match(TMDB_ID_PATTERN, s)` with
`TMDB_ID_PATTERN` (a nonzero digit and 1 to 10 digits) (movieFolder.py line 18): a match
exists iff the first character is `1`-`9` and the second is a digit. -/
def tmdbMatch (s : String) : Bool :=
  match s.toList with
  | c1 :: c2 :: _ => decide ('1' ≤ c1) && decide (c1 ≤ '9') && c2.isDigit
  | _ => false

/-- `NFO.__parse_releaseDate` (movieFolder.py lines 189-199). A falsy
(`None` or empty) value yields `None`. A 4-character digit string is
returned unchanged. For any other truthy value the source calls
`datetime.strptime`, but `datetime` is never imported in
`src/media/movieFolder.py`, so that call raises `NameError`, the bare
`except:` catches it, and `None` is returned. -/
def parse_releaseDate (releaseDate : Option String) : Option String :=
  match releaseDate with
  | none => none
  | some s =>
    if s ≠ "" then
      if s.length = 4 && pyIsDigit s then some s
      else none
    else none

/-- The raw fields of an `NFO` object after `__init__` sets them all to
`None` and `__parse_nfo` possibly assigns them (movieFolder.py
lines 69-83). `premiered` and `releasedate` hold the result of
`__parse_releaseDate` applied at parse time. -/
structure NFORaw where
  originaltitle : Option String := none
  title : Option String := none
  localtitle : Option String := none
  year : Option String := none
  releasedate : Option String := none
  premiered : Option String := none
  productionyear : Option String := none
  imdb : Option String := none
  tmdb : Option String := none
  unique_id_imdb : Option String := none
  unique_id_tmdb : Option String := none
  id : Option String := none
  deriving DecidableEq, Repr

namespace NFO

/-- `NFO.title` property (movieFolder.py lines 94-103): `isinstance(x, str)`
checks, so the first field that holds a string (even an empty one) wins. -/
def title (n : NFORaw) : Option String :=
  match n.originaltitle with
  | some s => some s
  | none =>
    match n.title with
    | some s => some s
    | none => n.localtitle

/-- `NFO.year` property (movieFolder.py lines 105-129). Two source slips
are embedded faithfully: in the `premiered` branch, when
`__parse_releaseDate` returns `None` the subsequent `re.match` on `None`
raises `TypeError`; in the `releasedate` branch the source passes the bound
method `self.__parse_releaseDate` itself (instead of `self.__releasedate`)
to `__parse_releaseDate`, whose `len()` call on a method raises `TypeError`
whenever that branch is reached. -/
def year (n : NFORaw) : Except PyExn (Option String) :=
  let afterPremiered : Except PyExn (Option String) :=
    if truthy n.releasedate then .error .typeError
    else
      .ok (
        match n.year with
        | some y =>
          if y ≠ "" && yearMatch y then some y
          else
            (match n.productionyear with
             | some p => if p ≠ "" && yearMatch p then some p else none
             | none => none)
        | none =>
          match n.productionyear with
          | some p => if p ≠ "" && yearMatch p then some p else none
          | none => none)
  if truthy n.premiered then
    match parse_releaseDate n.premiered with
    | none => .error .typeError
    | some y => if yearMatch y then .ok (some y) else afterPremiered
  else afterPremiered

/-- `NFO.imdb` property (movieFolder.py lines 131-139): truthiness check
then `re.match` against the imdb pattern, falling through
`__unique_id_imdb`, `__imdb`, `__id`. -/
def imdb (n : NFORaw) : Option String :=
  if truthy n.unique_id_imdb && imdbMatch (n.unique_id_imdb.getD "") then n.unique_id_imdb
  else if truthy n.imdb && imdbMatch (n.imdb.getD "") then n.imdb
  else if truthy n.id && imdbMatch (n.id.getD "") then n.id
  else none

/-- `NFO.tmdb` property (movieFolder.py lines 141-149). -/
def tmdb (n : NFORaw) : Option String :=
  if truthy n.unique_id_tmdb && tmdbMatch (n.unique_id_tmdb.getD "") then n.unique_id_tmdb
  else if truthy n.tmdb && tmdbMatch (n.tmdb.getD "") then n.tmdb
  else if truthy n.id && tmdbMatch (n.id.getD "") then n.id
  else none

/-- `NFO.is_complete` property (movieFolder.py lines 85-92): `self.imdb or
self.tmdb`, else `self.title and self.year` (the `year` property may raise,
and `and` short-circuits when the title is falsy). -/
def is_complete (n : NFORaw) : Except PyExn Bool :=
  if truthy (imdb n) || truthy (tmdb n) then .ok true
  else
    match title n with
    | some t =>
      if t ≠ "" then (year n).map truthy
      else .ok false
    | none => .ok false

end NFO

/-- `NFO.__parse_id` (movieFolder.py lines 201-207): a truthy value whose
lower-casing starts with `tt` is stored as the raw imdb field, else a fully
numeric value is stored as the raw tmdb field. -/
def parse_id (n : NFORaw) (movie_id : Option String) : NFORaw :=
  match movie_id with
  | none => n
  | some s =>
    if s ≠ "" then
      if (s.toList.take 2).map Char.toLower = ['t', 't'] then { n with imdb := some s }
      else if pyIsDigit s then { n with tmdb := some s }
      else n
    else n

/-- One top-level element of a parsed sidecar XML document: its tag, its
attribute map and its text (`None` for an empty element). -/
structure XmlItem where
  tag : String
  attrib : List (String × String)
  text : Option String
  deriving DecidableEq, Repr

/-- Python `dict` lookup of the type attribute modelled on an association list;
`none` corresponds to the key being absent (a `KeyError` in Python). -/
def attribGet (attrs : List (String × String)) (key : String) : Option String :=
  (attrs.find? (fun p => p.1 = key)).map Prod.snd

/-- What `et.parse` yields for a sidecar file: `failure` when the file is
unreadable or not well-formed XML (`IOError` / `et.ParseError`), otherwise
the list of children of the root element. -/
inductive XmlSource
  | failure
  | items (l : List XmlItem)
  deriving DecidableEq, Repr

/-- The per-element body of the `for item in root` loop of
`NFO.__parse_nfo` (movieFolder.py lines 159-187). A `uniqueid` element
without a `type` attribute makes the attribute lookup raise `KeyError`,
which nothing in the source catches. -/
def parse_item (n : NFORaw) (item : XmlItem) : Except PyExn NFORaw :=
  if toLowerStr item.tag = "uniqueid" then
    match attribGet item.attrib "type" with
    | none => .error .keyError
    | some ty =>
      if toLowerStr ty = "tmdb" then .ok { n with unique_id_tmdb := item.text }
      else if toLowerStr ty = "imdb" then .ok { n with unique_id_imdb := item.text }
      else .ok n
  else if ID_TAGS.contains (toLowerStr item.tag) then .ok (parse_id n item.text)
  else if toLowerStr item.tag = "premiered" then
    .ok { n with premiered := parse_releaseDate item.text }
  else if toLowerStr item.tag = "release_date" then
    .ok { n with releasedate := parse_releaseDate item.text }
  else if toLowerStr item.tag = "year" then .ok { n with year := item.text }
  else if toLowerStr item.tag = "productionyear" then .ok { n with productionyear := item.text }
  else if toLowerStr item.tag = "title" then .ok { n with title := item.text }
  else if toLowerStr item.tag = "originaltitle" then .ok { n with originaltitle := item.text }
  else if toLowerStr item.tag = "localtitle" then .ok { n with localtitle := item.text }
  else .ok n

/-- `NFO.__parse_nfo` (movieFolder.py lines 151-187): an unreadable or
malformed file is recovered to the all-`None` record (the `try`/`except`
covers only `et.parse`); otherwise the top-level elements are folded over
`parse_item`, and a `KeyError` raised there escapes. -/
def parse_nfo (src : XmlSource) : Except PyExn NFORaw :=
  match src with
  | .failure => .ok {}
  | .items l => l.foldlM parse_item {}

/-- A `Video` object: its path and the duration its construction assigned
(movieFolder.py lines 35-48). -/
structure Video where
  path : String
  duration : Nat
  deriving DecidableEq, Repr

/-- `Video.isMovie` (movieFolder.py lines 46-48). -/
def Video.isMovie (v : Video) : Bool :=
  MIN_MOVIE_DURATION ≤ v.duration

/-- `Video.__init__` with `skip_processing=True` (movieFolder.py
lines 38-42): the duration is forced to one below or one above the movie
threshold, with no probing. -/
def mkVideoSkip (path : String) (is_trailer : Bool) : Video :=
  { path := path
    duration := if is_trailer then MIN_MOVIE_DURATION - 1 else MIN_MOVIE_DURATION + 1 }

/-- Python `os.path.splitext` extension on a file name that contains no
path separator: the suffix starting at the last dot, provided some
character of the name before that dot is not itself a dot (so a leading
run of dots, as in `.nfo` as a whole file name, yields no extension). -/
def splitextExt (name : String) : String :=
  let cs := name.toList
  match ((List.range cs.length).filter (fun i => cs.getD i ' ' = '.')).getLast? with
  | none => ""
  | some i =>
    if (cs.take i).any (fun c => c ≠ '.') then String.mk (cs.drop i) else ""

/-- The file-name part `os.path.splitext(name)[0]`. -/
def splitextRoot (name : String) : String :=
  String.mk (name.toList.take (name.toList.length - (splitextExt name).toList.length))

/-- A regular file inside the scanned folder: its name, its size in bytes,
and — used only when its extension is a sidecar extension — what parsing
it as XML yields. -/
structure FsFile where
  name : String
  size : Nat
  nfoContent : XmlSource
  deriving DecidableEq, Repr

/-- An immediate subdirectory of the scanned folder: its full path as seen
by `os.scandir` (`item.path`), whether the fixed disc-image index files
exist inside it, and the names of its immediate children
(`os.listdir(item.path)`). -/
structure FsSubdir where
  path : String
  hasIndexBdmv : Bool
  hasVideoTsIfo : Bool
  children : List String
  deriving DecidableEq, Repr

/-- One immediate entry of the scanned folder. -/
inductive FsEntry
  | file (f : FsFile)
  | subdir (d : FsSubdir)
  deriving DecidableEq, Repr

/-- The mutable classification state of a `MovieFolder` (movieFolder.py
lines 210-215): at most one movie, at most one trailer, and the kept
sidecar record paired with its file size. -/
structure MovieFolderSt where
  movie : Option Video := none
  trailer : Option Video := none
  nfo : Option (NFORaw × Nat) := none
  deriving DecidableEq, Repr

/-- `MovieFolder.hasMovie` (movieFolder.py lines 231-233). -/
def hasMovie (st : MovieFolderSt) : Bool :=
  st.movie.isSome

/-- `MovieFolder.hasTrailer` (movieFolder.py lines 227-229). -/
def hasTrailer (st : MovieFolderSt) : Bool :=
  st.trailer.isSome

/-- The sidecar-selection condition of `MovieFolder.scan` (movieFolder.py
lines 249-250): keep the candidate iff it is complete and either nothing is
kept yet or the file of the candidate is strictly larger than the kept one. -/
def nfoStep (kept : Option (NFORaw × Nat)) (cand : NFORaw × Nat) (comp : Bool) :
    Option (NFORaw × Nat) :=
  if (comp && kept.isNone) ||
     (comp && (match kept with
               | some (_, sz) => decide (sz < cand.2)
               | none => false)) then some cand
  else kept

/-- The file branch of the `MovieFolder.scan` loop (movieFolder.py
lines 237-251), parameterised by the duration probe `ffprobe` stands for.
A video-extension file becomes the movie or the trailer by duration
threshold (last one wins); a sidecar-extension file is parsed (this can
raise) and kept according to `nfoStep`; extension membership is exact and
case-sensitive. -/
def scanFileStep (probe : String → Nat) (dirPath : String) (st : MovieFolderSt)
    (f : FsFile) : Except PyExn MovieFolderSt :=
  let path := dirPath ++ "/" ++ f.name
  let ext := splitextExt f.name
  if VIDEO_EXTENSIONS.contains ext then
    let video : Video := { path := path, duration := probe path }
    if video.isMovie then .ok { st with movie := some video }
    else .ok { st with trailer := some video }
  else if NFO_EXTENSIONS.contains ext then do
    let raw ← parse_nfo f.nfoContent
    let comp ← NFO.is_complete raw
    .ok { st with nfo := nfoStep st.nfo (raw, f.size) comp }
  else .ok st

/-- The body of the trailer-search loop inside a disc-image subdirectory
(movieFolder.py lines 264-269 and 280-285, which differ only in the marker
string): a child whose lower-cased name contains the marker is probed and
becomes the trailer only when the probe classifies it as a non-movie. -/
def discTrailerStep (probe : String → Nat) (dirPath marker : String)
    (acc : MovieFolderSt) (entry : String) : MovieFolderSt :=
  if strContains (toLowerStr entry) marker then
    let v : Video := { path := dirPath ++ "/" ++ entry,
                       duration := probe (dirPath ++ "/" ++ entry) }
    if !v.isMovie then { acc with trailer := some v } else acc
  else acc

/-- The directory branch of the `MovieFolder.scan` loop (movieFolder.py
lines 253-285): the two disc-image shapes. When the subdirectory path
contains the (lower-cased) marker and the fixed index file exists, the
movie is built from the index file with `skip_processing=True`; then the
children are searched for a trailer with `discTrailerStep`. -/
def scanSubdirStep (probe : String → Nat) (st : MovieFolderSt) (d : FsSubdir) :
    MovieFolderSt :=
  if strContains (toLowerStr d.path) "bdmv" then
    if d.hasIndexBdmv then
      let st1 := { st with movie := some (mkVideoSkip (d.path ++ "/" ++ "index.bdmv") false) }
      d.children.foldl (discTrailerStep probe d.path "index-trailer") st1
    else st
  else if strContains (toLowerStr d.path) "video_ts" then
    if d.hasVideoTsIfo then
      let st1 := { st with movie := some (mkVideoSkip (d.path ++ "/" ++ "VIDEO_TS.IFO") false) }
      d.children.foldl (discTrailerStep probe d.path "video_ts-trailer") st1
    else st
  else st

/-- `MovieFolder.scan` (movieFolder.py lines 235-285) as a fold over the
immediate entries of the folder, starting from the empty state set up by
`MovieFolder.__init__`. Exceptions raised while parsing a sidecar file
propagate out (and hence out of `MovieFolder(...)`). -/
def scan (probe : String → Nat) (rootDir : String) (entries : List FsEntry) :
    Except PyExn MovieFolderSt :=
  entries.foldlM (fun st e =>
    match e with
    | .file f => scanFileStep probe rootDir st f
    | .subdir d => .ok (scanSubdirStep probe st d)) {}

/-- `MovieFolder.trailerName` (movieFolder.py lines 217-220): defined only
when a movie was found. -/
def trailerName (st : MovieFolderSt) : Option String :=
  st.movie.map (fun m => splitextRoot m.path ++ "-trailer.mp4")

/-- Run-wide counters of `TrailerTech.__init__` (TrailerTech.py
lines 17-20). -/
structure Counters where
  directoriesScanned : Nat
  trailersDownloaded : Nat
  trailersFound : Nat
  deriving DecidableEq, Repr

/-- `missingTrailers` as computed by `TrailerTech.printStats`
(TrailerTech.py line 28). -/
def missingTrailers (c : Counters) : Int :=
  (c.directoriesScanned : Int) - ((c.trailersDownloaded : Int) + (c.trailersFound : Int))

/-- One invocation of the download collaborator, recorded with which of the
two loops made it (`downloadApple` vs `downloadYouTube`). -/
inductive Attempt
  | apple (link : String)
  | youtube (link : String)
  deriving DecidableEq, Repr

/-- The terminal state of one `get_Trailer` invocation that returns
normally. -/
inductive Outcome
  | invalidPath
  | noMovie
  | alreadyFound
  | downloadedApple (link : String)
  | downloadedYT (link : String)
  | notFound
  deriving DecidableEq, Repr

/-- One of the candidate-link loops of `get_Trailer` (TrailerTech.py
lines 68-83): the links attempted (in order, each failed one followed by
the next) and the first successful link, if any. -/
def tryLinksT (dl : String → Bool) : List String → List String × Option String
  | [] => ([], none)
  | l :: rest =>
    if dl l then ([l], some l)
    else
      let r := tryLinksT dl rest
      (l :: r.1, r.2)

/-- The metadata-resolution step of `get_Trailer` (TrailerTech.py
lines 58-64): when a truthy override id or a truthy title together with a
truthy year was supplied, the overrides are used and the sidecar record is
not touched; otherwise the attribute accesses `folder.nfo.tmdb`,
`folder.nfo.imdb`, `folder.nfo.title`, `folder.nfo.year` are evaluated —
`AttributeError` when `folder.nfo` is `None`, and possibly `TypeError`
from the `year` property. -/
def resolveMetadata (tmdbid imdbid title year : Option String)
    (nfo : Option (NFORaw × Nat)) : Except PyExn Unit :=
  if (truthy tmdbid || truthy imdbid) || (truthy title && truthy year) then .ok ()
  else
    match nfo with
    | none => .error .attributeError
    | some (raw, _) => (NFO.year raw).map (fun _ => ())

/-- `TrailerTech.get_Trailer` (TrailerTech.py lines 40-84), parameterised
by everything the collaborators contribute: whether the path is a
directory, the result of constructing `MovieFolder(movieDir)` (which can
itself raise), the caller overrides, the two candidate-link lists the
collaborators return, and the download collaborator as success predicates.
Returns the updated counters, the trace of download attempts, and either
the terminal state or the escaped exception. Two exception paths are
embedded faithfully: when no override is given and `folder.nfo` is `None`,
`folder.nfo.tmdb` raises `AttributeError`; and evaluating
`folder.nfo.year` can raise `TypeError`. -/
def get_Trailer (pathIsDir : Bool) (folder : Except PyExn MovieFolderSt)
    (tmdbid imdbid title year : Option String)
    (appleLinks ytLinks : List String)
    (dlApple dlYT : String → Bool)
    (c : Counters) : Counters × List Attempt × Except PyExn Outcome :=
  if !pathIsDir then (c, [], .ok .invalidPath)
  else
    match folder with
    | .error e => (c, [], .error e)
    | .ok st =>
      if !hasMovie st then (c, [], .ok .noMovie)
      else
        let c1 : Counters := { c with directoriesScanned := c.directoriesScanned + 1 }
        if hasTrailer st then
          ({ c1 with trailersFound := c1.trailersFound + 1 }, [], .ok .alreadyFound)
        else
          match resolveMetadata tmdbid imdbid title year st.nfo with
          | .error e => (c1, [], .error e)
          | .ok _ =>
            let ra := tryLinksT dlApple appleLinks
            match ra.2 with
            | some l =>
              ({ c1 with trailersDownloaded := c1.trailersDownloaded + 1 },
               ra.1.map Attempt.apple, .ok (.downloadedApple l))
            | none =>
              let ry := tryLinksT dlYT ytLinks
              match ry.2 with
              | some l =>
                ({ c1 with trailersDownloaded := c1.trailersDownloaded + 1 },
                 ra.1.map Attempt.apple ++ ry.1.map Attempt.youtube,
                 .ok (.downloadedYT l))
              | none =>
                (c1, ra.1.map Attempt.apple ++ ry.1.map Attempt.youtube, .ok .notFound)

/-- Everything one `get_Trailer` invocation depends on. -/
structure Invocation where
  pathIsDir : Bool
  folder : Except PyExn MovieFolderSt
  tmdbid : Option String := none
  imdbid : Option String := none
  title : Option String := none
  year : Option String := none
  appleLinks : List String := []
  ytLinks : List String := []
  dlApple : String → Bool := fun _ => false
  dlYT : String → Bool := fun _ => false

/-- Run one invocation against the current counters. -/
def runOne (c : Counters) (inv : Invocation) : Counters × List Attempt × Except PyExn Outcome :=
  get_Trailer inv.pathIsDir inv.folder inv.tmdbid inv.imdbid inv.title inv.year
    inv.appleLinks inv.ytLinks inv.dlApple inv.dlYT c

/-- Counters after a sequence of invocations (each invocation mutates the
shared counters as `get_Trailer` does). -/
def runAll (c : Counters) (invs : List Invocation) : Counters :=
  invs.foldl (fun acc inv => (runOne acc inv).1) c

/-- The kept sidecar record after a sequence of sidecar candidates — each
given as (parsed record, file size, completeness) — has been classified in
order by the scan loop, i.e. the fold of `nfoStep` from the initial `None`
set by `MovieFolder.__init__`. -/
def nfoFold (cands : List (NFORaw × Nat × Bool)) : Option (NFORaw × Nat) :=
  cands.foldl (fun kept c => nfoStep kept (c.1, c.2.1) c.2.2) none

/-- Articulation of the id-accessor clause of the specification, for
comparison with the source accessors `NFO.imdb` / `NFO.tmdb`: walk the raw
fields in priority order and return the first truthy one that satisfies
the validating pattern; a raw value failing its pattern is treated as
absent and the walk falls through to the next source. -/
def specFirstValidId (valid : String → Bool) : List (Option String) → Option String
  | [] => none
  | none :: rest => specFirstValidId valid rest
  | some s :: rest =>
    if s ≠ "" && valid s then some s else specFirstValidId valid rest

/-! ## Theorems -/

/-- C1: the spec scenario says a valid folder holding exactly one long
video, no sidecar and no trailer, with no overrides, ends in the
not-found terminal state with only the scanned counter incremented and no
escaping exception. The code instead increments the scanned counter and
then raises `AttributeError`: with no sidecar file, `folder.nfo` is `None`
and `get_Trailer` dereferences `folder.nfo.tmdb` (TrailerTech.py line 62).
This theorem evaluates the embedded orchestrator at exactly that input:
`movie.mkv` probed at 1800 s, no sidecar, no overrides, both collaborator
lists empty. -/
theorem C1_no_sidecar_attribute_error :
    get_Trailer true
      (scan (fun _ => 1800) "/library/movie" [.file ⟨"movie.mkv", 1000, .failure⟩])
      none none none none [] [] (fun _ => false) (fun _ => false)
      ⟨0, 0, 0⟩
    = (⟨1, 0, 0⟩, [], .error .attributeError) := by
  rfl

/-- C2: the spec says a full year-month-day release-date value is reduced
to its 4-digit year. In the source, `__parse_releaseDate` calls
`datetime.strptime`, but `datetime` is never imported in
`src/media/movieFolder.py`; the resulting `NameError` is swallowed by the
bare `except:` and `None` is returned, so a full date yields no year. The
4-digit pass-through and the rejection of other values do hold. -/
theorem C2_parse_releaseDate_eval :
    parse_releaseDate (some "2005-03-12") = none ∧
    parse_releaseDate (some "2005") = some "2005" ∧
    parse_releaseDate (some "garbage") = none ∧
    parse_releaseDate none = none := by
  exact ⟨by decide, by decide, by decide, rfl⟩

/-- C3: the claim says the derived year accessor falls from the premiered
source to the release-date source and never raises. In the source, the
release-date branch passes the bound method `self.__parse_releaseDate`
itself instead of `self.__releasedate` (movieFolder.py line 114), so
`len()` inside `__parse_releaseDate` raises `TypeError` whenever a
release-date value is present and the premiered branch did not return.
This theorem evaluates a sidecar carrying only `release_date = "1999"`:
the accessor raises instead of returning `"1999"`. -/
theorem C3_year_release_date_type_error :
    (parse_nfo (.items [⟨"release_date", [], some "1999"⟩])).bind NFO.year
      = .error .typeError ∧
    NFO.year { releasedate := some "1999" } = .error .typeError := by
  exact ⟨by decide, by decide⟩

/-- C4 counterexample: the claim says extension recognition is
case-insensitive. The scan loop tests `ext in VIDEO_EXTENSIONS` /
`ext in NFO_EXTENSIONS` with no lower-casing (movieFolder.py
lines 238-247), so `movie.MKV` (probed at 1800 s) is not classified as a
video at all while `movie.mkv` is, and an upper-cased sidecar extension is
ignored while the lower-cased one is parsed and kept. -/
theorem C4_case_counterexample :
    scan (fun _ => 1800) "/d" [.file ⟨"movie.MKV", 0, .failure⟩] = .ok {} ∧
    scan (fun _ => 1800) "/d" [.file ⟨"movie.mkv", 0, .failure⟩]
      = .ok { movie := some ⟨"/d/movie.mkv", 1800⟩ } ∧
    scan (fun _ => 1800) "/d"
      [.file ⟨"m.NFO", 9, .items [⟨"title", [], some "T"⟩, ⟨"year", [], some "1999"⟩]⟩]
      = .ok {} ∧
    scan (fun _ => 1800) "/d"
      [.file ⟨"m.nfo", 9, .items [⟨"title", [], some "T"⟩, ⟨"year", [], some "1999"⟩]⟩]
      = .ok { nfo := some ({ title := some "T", year := some "1999" }, 9) } := by
  refine ⟨by rfl, by rfl, by rfl, by decide⟩

/-- C4 amended: extension recognition is exact and case-sensitive — a file
whose extension is not literally a member of the fixed (all lower-case)
lists, for example because it differs in letter case, is not classified as
a video or sidecar file and leaves the classification state unchanged. -/
theorem C4_extension_case_sensitive (probe : String → Nat) (dirPath : String)
    (st : MovieFolderSt) (f : FsFile)
    (hv : splitextExt f.name ∉ VIDEO_EXTENSIONS)
    (hn : splitextExt f.name ∉ NFO_EXTENSIONS) :
    scanFileStep probe dirPath st f = .ok st := by
  simp [scanFileStep, hv, hn]

/-- Witness for `C4_extension_case_sensitive` at the concrete file
`movie.MKV`, whose extension differs from a recognized one only in case. -/
theorem C4_extension_case_sensitive_witness :
    scanFileStep (fun _ => 1800) "/d" {} ⟨"movie.MKV", 0, .failure⟩ = .ok {} :=
  C4_extension_case_sensitive (fun _ => 1800) "/d" {} ⟨"movie.MKV", 0, .failure⟩
    (by decide) (by decide)

/-- `nfoStep` either keeps the current record, or — only when the
candidate is complete — takes the candidate. -/
theorem nfoStep_keep_or_take (kept : Option (NFORaw × Nat)) (cand : NFORaw × Nat)
    (comp : Bool) :
    nfoStep kept cand comp = kept ∨ (comp = true ∧ nfoStep kept cand comp = some cand) := by
  unfold nfoStep
  cases comp with
  | false => left; simp
  | true => split <;> simp_all

/-- `nfoStep` never drops a kept record. -/
theorem nfoStep_isSome (kept : Option (NFORaw × Nat)) (cand : NFORaw × Nat) (comp : Bool)
    (h : kept.isSome = true) : (nfoStep kept cand comp).isSome = true := by
  unfold nfoStep
  split <;> simp_all

/-- After a complete candidate, something is always kept. -/
theorem nfoStep_complete_isSome (kept : Option (NFORaw × Nat)) (cand : NFORaw × Nat) :
    (nfoStep kept cand true).isSome = true := by
  unfold nfoStep
  cases kept <;> simp
  split <;> simp

/-- The fold of `nfoStep` either leaves the accumulator untouched or ends
on a complete candidate of the list. -/
theorem nfoFold_go_eq_or_mem (cands : List (NFORaw × Nat × Bool)) :
    ∀ acc : Option (NFORaw × Nat),
      cands.foldl (fun kept c => nfoStep kept (c.1, c.2.1) c.2.2) acc = acc ∨
      ∃ c ∈ cands, c.2.2 = true ∧
        cands.foldl (fun kept c => nfoStep kept (c.1, c.2.1) c.2.2) acc = some (c.1, c.2.1) := by
  induction cands with
  | nil => intro acc; left; rfl
  | cons c rest ih =>
    intro acc
    rw [List.foldl_cons]
    rcases nfoStep_keep_or_take acc (c.1, c.2.1) c.2.2 with h | ⟨hc, h⟩
    · rw [h]
      rcases ih acc with h2 | ⟨c', hc', hcomp, h2⟩
      · left; exact h2
      · right; exact ⟨c', List.mem_cons_of_mem _ hc', hcomp, h2⟩
    · rw [h]
      rcases ih (some (c.1, c.2.1)) with h2 | ⟨c', hc', hcomp, h2⟩
      · right; exact ⟨c, List.mem_cons_self _ _, hc, h2⟩
      · right; exact ⟨c', List.mem_cons_of_mem _ hc', hcomp, h2⟩

/-- Once some complete candidate has been seen, the fold of `nfoStep`
keeps a record. -/
theorem nfoFold_go_isSome (cands : List (NFORaw × Nat × Bool)) :
    ∀ acc : Option (NFORaw × Nat),
      (acc.isSome = true ∨ ∃ c ∈ cands, c.2.2 = true) →
      (cands.foldl (fun kept c => nfoStep kept (c.1, c.2.1) c.2.2) acc).isSome = true := by
  induction cands with
  | nil =>
    intro acc h
    rcases h with h | ⟨c, hc, _⟩
    · exact h
    · exact absurd hc (List.not_mem_nil c)
  | cons c rest ih =>
    intro acc h
    rw [List.foldl_cons]
    apply ih
    rcases h with h | ⟨c', hc', hcomp⟩
    · left; exact nfoStep_isSome _ _ _ h
    · rcases List.mem_cons.mp hc' with rfl | hmem
      · left; rw [hcomp]; exact nfoStep_complete_isSome _ _
      · right; exact ⟨c', hmem, hcomp⟩

/-- C5: the sidecar-selection rule of the scan loop. An incomplete
candidate never replaces the kept record; a complete candidate always
replaces an absent kept record; a complete candidate replaces a kept
record exactly when its file is strictly larger; and over any sequence of
candidates, as soon as one complete candidate was seen the kept record is
one of the complete candidates (hence complete). -/
theorem C5_sidecar_selection (cands : List (NFORaw × Nat × Bool))
    (kept cand : NFORaw × Nat) :
    nfoStep (some kept) cand false = some kept ∧
    nfoStep none cand false = none ∧
    nfoStep none cand true = some cand ∧
    nfoStep (some kept) cand true = (if kept.2 < cand.2 then some cand else some kept) ∧
    ((∃ c ∈ cands, c.2.2 = true) →
      ∃ c ∈ cands, c.2.2 = true ∧ nfoFold cands = some (c.1, c.2.1)) := by
  refine ⟨by simp [nfoStep], by simp [nfoStep], by simp [nfoStep], ?_, ?_⟩
  · unfold nfoStep
    by_cases h : kept.2 < cand.2 <;> simp_all
  · intro hex
    rcases nfoFold_go_eq_or_mem cands none with h | h
    · have := nfoFold_go_isSome cands none (Or.inr hex)
      rw [nfoFold] at *
      rw [h] at this
      exact absurd this (by simp)
    · exact h

/-- Witness for `C5_sidecar_selection`: a single complete candidate is
kept. -/
theorem C5_sidecar_selection_witness :
    ∃ c ∈ [(({ title := some "T", year := some "1999" } : NFORaw), 7, true)],
      c.2.2 = true ∧
      nfoFold [({ title := some "T", year := some "1999" }, 7, true)] = some (c.1, c.2.1) :=
  (C5_sidecar_selection [({ title := some "T", year := some "1999" }, 7, true)]
      ({}, 0) ({}, 0)).2.2.2.2
    ⟨({ title := some "T", year := some "1999" }, 7, true), by simp, rfl⟩

/-- The spec-side priority walk only returns values accepted by the
validating pattern. -/
theorem specFirstValidId_valid (valid : String → Bool) :
    ∀ (l : List (Option String)) (s : String),
      specFirstValidId valid l = some s → valid s = true := by
  intro l
  induction l with
  | nil => intro s h; simp [specFirstValidId] at h
  | cons o rest ih =>
    intro s h
    match o with
    | none => exact ih s (by simpa [specFirstValidId] using h)
    | some v =>
      rw [specFirstValidId] at h
      by_cases hv : (v ≠ "" && valid v) = true
      · rw [if_pos hv] at h
        cases h
        exact (Bool.and_eq_true_iff.mp hv).2
      · rw [if_neg hv] at h
        exact ih s h

/-- C6: the textual-id and numeric-id accessors return only values that
match their validating pattern, and each accessor equals the priority walk
that treats a pattern-failing raw value as absent and falls through to the
next source. -/
theorem C6_id_accessor_validated (n : NFORaw) :
    (∀ s, NFO.imdb n = some s → imdbMatch s = true) ∧
    (∀ s, NFO.tmdb n = some s → tmdbMatch s = true) ∧
    NFO.imdb n = specFirstValidId imdbMatch [n.unique_id_imdb, n.imdb, n.id] ∧
    NFO.tmdb n = specFirstValidId tmdbMatch [n.unique_id_tmdb, n.tmdb, n.id] := by
  have himdb : NFO.imdb n = specFirstValidId imdbMatch [n.unique_id_imdb, n.imdb, n.id] := by
    unfold NFO.imdb
    cases n.unique_id_imdb <;> cases n.imdb <;> cases n.id <;>
      simp [specFirstValidId, truthy]
  have htmdb : NFO.tmdb n = specFirstValidId tmdbMatch [n.unique_id_tmdb, n.tmdb, n.id] := by
    unfold NFO.tmdb
    cases n.unique_id_tmdb <;> cases n.tmdb <;> cases n.id <;>
      simp [specFirstValidId, truthy]
  refine ⟨?_, ?_, himdb, htmdb⟩
  · intro s h
    exact specFirstValidId_valid imdbMatch _ s (himdb ▸ h)
  · intro s h
    exact specFirstValidId_valid tmdbMatch _ s (htmdb ▸ h)

/-- Witness for `C6_id_accessor_validated`: a record carrying a valid
typed imdb id. -/
theorem C6_id_accessor_validated_witness : imdbMatch "tt1234567" = true :=
  (C6_id_accessor_validated { unique_id_imdb := some "tt1234567" }).1 "tt1234567" (by decide)

/-- The disc-image trailer search never touches the movie slot. -/
theorem discTrailer_foldl_movie (probe : String → Nat) (dp m : String)
    (children : List String) :
    ∀ acc : MovieFolderSt,
      (children.foldl (discTrailerStep probe dp m) acc).movie = acc.movie := by
  induction children with
  | nil => intro acc; rfl
  | cons e rest ih =>
    intro acc
    rw [List.foldl_cons, ih]
    simp only [discTrailerStep]
    split
    · split <;> rfl
    · rfl

/-- A single disc-image trailer-search step either keeps the trailer slot
or fills it with a probed, marker-named, non-movie child. -/
theorem discTrailerStep_trailer (probe : String → Nat) (dp m : String)
    (acc : MovieFolderSt) (e : String) (v : Video)
    (h : (discTrailerStep probe dp m acc e).trailer = some v) :
    acc.trailer = some v ∨
      (v.isMovie = false ∧ strContains (toLowerStr e) m = true ∧
       v = { path := dp ++ "/" ++ e, duration := probe (dp ++ "/" ++ e) }) := by
  unfold discTrailerStep at h
  by_cases hc : strContains (toLowerStr e) m = true
  · rw [if_pos hc] at h
    by_cases hm : Video.isMovie { path := dp ++ "/" ++ e,
                                  duration := probe (dp ++ "/" ++ e) } = true
    · simp only [hm, Bool.not_true, if_neg] at h
      left; simpa using h
    · simp only [Bool.not_eq_true] at hm
      simp only [hm, Bool.not_false, if_pos] at h
      right
      have hv : v = { path := dp ++ "/" ++ e, duration := probe (dp ++ "/" ++ e) } := by
        have := h
        simp at this
        exact this.symm
      exact ⟨by rw [hv]; exact hm, hc, hv⟩
  · rw [if_neg hc] at h
    left; exact h

/-- Over the whole child list, the trailer slot is either untouched or set
from a probed, marker-named, non-movie child. -/
theorem discTrailer_foldl_trailer (probe : String → Nat) (dp m : String)
    (children : List String) :
    ∀ (acc : MovieFolderSt) (v : Video),
      (children.foldl (discTrailerStep probe dp m) acc).trailer = some v →
      acc.trailer = some v ∨
        (v.isMovie = false ∧ ∃ e ∈ children,
          strContains (toLowerStr e) m = true ∧
          v = { path := dp ++ "/" ++ e, duration := probe (dp ++ "/" ++ e) }) := by
  induction children with
  | nil => intro acc v h; left; exact h
  | cons e rest ih =>
    intro acc v h
    rw [List.foldl_cons] at h
    rcases ih _ v h with h2 | ⟨hnm, e', he', hm, hv⟩
    · rcases discTrailerStep_trailer probe dp m acc e v h2 with h3 | ⟨hnm, hc, hv⟩
      · left; exact h3
      · right; exact ⟨hnm, e, List.mem_cons_self _ _, hc, hv⟩
    · right; exact ⟨hnm, e', List.mem_cons_of_mem _ he', hm, hv⟩

/-- C9 counterexample: the claim speaks of the final classification result
of any folder containing a marked disc-image subdirectory, but the scan
loop lets a later flat video file overwrite the disc-image movie
(last-wins). In a folder listing the BDMV subdirectory first and a 1800 s
`movie.mkv` after it, the resulting movie is the flat file, not a
`VideoFile` built from the index file. -/
theorem C9_last_wins_counterexample :
    scan (fun p => if p = "/d/movie.mkv" then 1800 else 90) "/d"
      [.subdir ⟨"/d/BDMV", true, false, []⟩, .file ⟨"movie.mkv", 5, .failure⟩]
    = .ok { movie := some ⟨"/d/movie.mkv", 1800⟩ } := by
  rfl

/-- C9 amended: after the scan loop processes a subdirectory whose
lower-cased path contains the shape-A marker and whose fixed index file
exists, the classification state has as movie a `Video` built from that
index file whose duration is forced above the threshold independently of
the probe (no probing), and any trailer in the state either was already
there or is a probed, marker-named, non-movie child of the subdirectory.
(This is the final classification of the folder whenever no later entry
overrides it.) -/
theorem C9_disc_image_shape_A (probe : String → Nat) (st : MovieFolderSt) (d : FsSubdir)
    (hmark : strContains (toLowerStr d.path) "bdmv" = true)
    (hidx : d.hasIndexBdmv = true) :
    (scanSubdirStep probe st d).movie
      = some { path := d.path ++ "/" ++ "index.bdmv",
               duration := MIN_MOVIE_DURATION + 1 } ∧
    (∀ v, (scanSubdirStep probe st d).trailer = some v →
      st.trailer = some v ∨
        (v.isMovie = false ∧ ∃ e ∈ d.children,
          strContains (toLowerStr e) "index-trailer" = true ∧
          v = { path := d.path ++ "/" ++ e, duration := probe (d.path ++ "/" ++ e) })) := by
  unfold scanSubdirStep
  rw [if_pos hmark, if_pos hidx]
  constructor
  · rw [discTrailer_foldl_movie]
    rfl
  · intro v h
    dsimp only at h
    exact discTrailer_foldl_trailer probe d.path "index-trailer" d.children
      { st with movie := some (mkVideoSkip (d.path ++ "/" ++ "index.bdmv") false) } v h

/-- Witness for `C9_disc_image_shape_A`: the spec scenario, a BDMV folder
with `index.bdmv` and a 90 s `index-trailer` child; the probe returns 90
for every path, yet the movie duration is the forced 601. -/
theorem C9_disc_image_shape_A_witness :
    (scanSubdirStep (fun _ => 90) {} ⟨"/d/BDMV", true, false, ["index-trailer.m2ts"]⟩).movie
      = some { path := "/d/BDMV" ++ "/" ++ "index.bdmv",
               duration := MIN_MOVIE_DURATION + 1 } :=
  (C9_disc_image_shape_A (fun _ => 90) {} ⟨"/d/BDMV", true, false, ["index-trailer.m2ts"]⟩
    (by decide) rfl).1

/-- Bind of a successful `Except` computation. -/
theorem exceptOk_bind {α β : Type} (a : α) (f : α → Except PyExn β) :
    (Except.ok a >>= f) = f a := rfl

/-- Bind of a failed `Except` computation. -/
theorem exceptError_bind {α β : Type} (e : PyExn) (f : α → Except PyExn β) :
    ((Except.error e : Except PyExn α) >>= f) = .error e := rfl

/-- `parse_item` only raises on a `uniqueid` element without a `type`
attribute. -/
theorem parse_item_ok (n : NFORaw) (it : XmlItem)
    (h : ¬(toLowerStr it.tag = "uniqueid" ∧ attribGet it.attrib "type" = none)) :
    ∃ m, parse_item n it = .ok m := by
  by_cases ht : toLowerStr it.tag = "uniqueid"
  · rw [parse_item, if_pos ht]
    rcases hA : attribGet it.attrib "type" with _ | ty
    · exact absurd ⟨ht, hA⟩ h
    · dsimp only
      split
      · exact ⟨_, rfl⟩
      · split
        · exact ⟨_, rfl⟩
        · exact ⟨_, rfl⟩
  · rw [parse_item, if_neg ht]
    repeat' split
    all_goals exact ⟨_, rfl⟩

/-- A run of benign elements folds to a success. -/
theorem foldlM_parse_item_ok (pre : List XmlItem) :
    ∀ n : NFORaw,
      (∀ it ∈ pre, ¬(toLowerStr it.tag = "uniqueid" ∧ attribGet it.attrib "type" = none)) →
      ∃ m, pre.foldlM parse_item n = .ok m := by
  induction pre with
  | nil => intro n _; exact ⟨n, rfl⟩
  | cons it rest ih =>
    intro n h
    obtain ⟨m, hm⟩ := parse_item_ok n it (h it (List.mem_cons_self _ _))
    rw [List.foldlM_cons, hm, exceptOk_bind]
    exact ih m (fun x hx => h x (List.mem_cons_of_mem _ hx))

/-- C10: when the top level of a successfully parsed sidecar contains a
`uniqueid` element with no `type` attribute (and the elements before it
are benign), sidecar parsing raises an uncaught `KeyError`; the
best-effort recovery applies only to unreadable files and XML parse
errors, which yield the all-unset record. -/
theorem C10_uniqueid_missing_type (pre post : List XmlItem)
    (attrs : List (String × String)) (txt : Option String)
    (hpre : ∀ it ∈ pre, ¬(toLowerStr it.tag = "uniqueid" ∧ attribGet it.attrib "type" = none))
    (hattr : attribGet attrs "type" = none) :
    parse_nfo (.items (pre ++ ⟨"uniqueid", attrs, txt⟩ :: post)) = .error .keyError ∧
    parse_nfo .failure = .ok ({} : NFORaw) := by
  constructor
  · obtain ⟨m, hm⟩ := foldlM_parse_item_ok pre ({} : NFORaw) hpre
    show (pre ++ (⟨"uniqueid", attrs, txt⟩ : XmlItem) :: post).foldlM parse_item {}
        = .error .keyError
    rw [List.foldlM_append, hm, exceptOk_bind, List.foldlM_cons]
    have hbad : parse_item m ⟨"uniqueid", attrs, txt⟩ = .error .keyError := by
      have ht : toLowerStr "uniqueid" = "uniqueid" := by decide
      simp [parse_item, ht, hattr]
    rw [hbad, exceptError_bind]
  · rfl

/-- Witness for `C10_uniqueid_missing_type`: a sidecar whose only element
is a bare `uniqueid`. -/
theorem C10_uniqueid_missing_type_witness :
    parse_nfo (.items ([] ++ (⟨"uniqueid", [], none⟩ : XmlItem) :: [])) = .error .keyError ∧
    parse_nfo .failure = .ok ({} : NFORaw) :=
  C10_uniqueid_missing_type [] [] [] none (by simp) rfl

/-- `tryLinksT` attempts exactly the failing prefix plus, when one exists,
the first successful link, at which it stops. -/
theorem tryLinksT_eq (dl : String → Bool) (ls : List String) :
    tryLinksT dl ls =
      (ls.takeWhile (fun l => !dl l) ++ (ls.dropWhile (fun l => !dl l)).take 1,
       (ls.dropWhile (fun l => !dl l)).head?) := by
  induction ls with
  | nil => rfl
  | cons l rest ih =>
    by_cases h : dl l
    · simp [tryLinksT, h, List.takeWhile_cons, List.dropWhile_cons]
    · simp [tryLinksT, h, List.takeWhile_cons, List.dropWhile_cons, ih]

/-- C8: once a folder reaches the download stage (movie found, no trailer,
metadata resolution returned normally), the orchestrator attempts the
scraper (apple) list first and the catalog (yt) list second, each in
original order; the first successful attempt increments the downloaded
counter and terminates with no later candidate ever attempted, every
failed attempt is followed by the next candidate, and exhausting both
lists terminates in the not-found state with no further counter change. -/
theorem C8_download_attempt_order (st : MovieFolderSt)
    (tmdbid imdbid title year : Option String)
    (appleLinks ytLinks : List String) (dlApple dlYT : String → Bool) (c : Counters)
    (hmov : hasMovie st = true) (htr : hasTrailer st = false)
    (hres : resolveMetadata tmdbid imdbid title year st.nfo = .ok ()) :
    (∀ l, (appleLinks.dropWhile (fun x => !dlApple x)).head? = some l →
      get_Trailer true (.ok st) tmdbid imdbid title year appleLinks ytLinks dlApple dlYT c
        = ({ c with directoriesScanned := c.directoriesScanned + 1,
                    trailersDownloaded := c.trailersDownloaded + 1 },
           (appleLinks.takeWhile (fun x => !dlApple x) ++ [l]).map Attempt.apple,
           .ok (.downloadedApple l))) ∧
    ((appleLinks.dropWhile (fun x => !dlApple x)).head? = none →
      (∀ l, (ytLinks.dropWhile (fun x => !dlYT x)).head? = some l →
        get_Trailer true (.ok st) tmdbid imdbid title year appleLinks ytLinks dlApple dlYT c
          = ({ c with directoriesScanned := c.directoriesScanned + 1,
                      trailersDownloaded := c.trailersDownloaded + 1 },
             appleLinks.map Attempt.apple ++
               (ytLinks.takeWhile (fun x => !dlYT x) ++ [l]).map Attempt.youtube,
             .ok (.downloadedYT l))) ∧
      ((ytLinks.dropWhile (fun x => !dlYT x)).head? = none →
        get_Trailer true (.ok st) tmdbid imdbid title year appleLinks ytLinks dlApple dlYT c
          = ({ c with directoriesScanned := c.directoriesScanned + 1 },
             appleLinks.map Attempt.apple ++ ytLinks.map Attempt.youtube,
             .ok .notFound))) := by
  have hgt : get_Trailer true (.ok st) tmdbid imdbid title year appleLinks ytLinks dlApple dlYT c
      = (match (tryLinksT dlApple appleLinks).2 with
         | some l =>
           ({ c with directoriesScanned := c.directoriesScanned + 1,
                     trailersDownloaded := c.trailersDownloaded + 1 },
            (tryLinksT dlApple appleLinks).1.map Attempt.apple, .ok (.downloadedApple l))
         | none =>
           match (tryLinksT dlYT ytLinks).2 with
           | some l =>
             ({ c with directoriesScanned := c.directoriesScanned + 1,
                       trailersDownloaded := c.trailersDownloaded + 1 },
              (tryLinksT dlApple appleLinks).1.map Attempt.apple ++
                (tryLinksT dlYT ytLinks).1.map Attempt.youtube, .ok (.downloadedYT l))
           | none =>
             ({ c with directoriesScanned := c.directoriesScanned + 1 },
              (tryLinksT dlApple appleLinks).1.map Attempt.apple ++
                (tryLinksT dlYT ytLinks).1.map Attempt.youtube, .ok .notFound)) := by
    rw [get_Trailer]
    rw [hmov, htr, hres]
    rfl
  refine ⟨?_, ?_⟩
  · intro l hl
    rw [hgt, tryLinksT_eq]
    have hd : (appleLinks.dropWhile (fun x => !dlApple x)).take 1 = [l] := by
      cases hdw : appleLinks.dropWhile (fun x => !dlApple x) with
      | nil => rw [hdw] at hl; exact absurd hl (by simp)
      | cons a t =>
        rw [hdw] at hl
        simp at hl
        rw [hl]
        rfl
    rw [hd, hl]
  · intro hnone
    have hd : appleLinks.dropWhile (fun x => !dlApple x) = [] :=
      List.head?_eq_none_iff.mp hnone
    have htk : appleLinks.takeWhile (fun x => !dlApple x) = appleLinks := by
      have := List.takeWhile_append_dropWhile (p := fun x => !dlApple x) (l := appleLinks)
      rw [hd] at this
      simpa using this
    refine ⟨?_, ?_⟩
    · intro l hl
      rw [hgt, tryLinksT_eq, tryLinksT_eq]
      have hdy : (ytLinks.dropWhile (fun x => !dlYT x)).take 1 = [l] := by
        cases hdw : ytLinks.dropWhile (fun x => !dlYT x) with
        | nil => rw [hdw] at hl; exact absurd hl (by simp)
        | cons a t =>
          rw [hdw] at hl
          simp at hl
          rw [hl]
          rfl
      rw [hnone, hd, htk, hdy, hl]
      simp
    · intro hlnone
      have hdy : ytLinks.dropWhile (fun x => !dlYT x) = [] :=
        List.head?_eq_none_iff.mp hlnone
      have htky : ytLinks.takeWhile (fun x => !dlYT x) = ytLinks := by
        have := List.takeWhile_append_dropWhile (p := fun x => !dlYT x) (l := ytLinks)
        rw [hdy] at this
        simpa using this
      rw [hgt, tryLinksT_eq, tryLinksT_eq, hnone, hlnone, hd, hdy, htk, htky]
      simp

/-- Witness for `C8_download_attempt_order`: two scraper candidates, the
first fails and the second succeeds; both are attempted in order and the
catalog list is never touched. -/
theorem C8_download_attempt_order_witness :
    get_Trailer true (.ok { movie := some ⟨"/d/m.mkv", 1800⟩ })
        (some "42") none none none ["a", "b"] ["c"]
        (fun l => decide (l = "b")) (fun _ => true) ⟨0, 0, 0⟩
      = (⟨1, 1, 0⟩, [Attempt.apple "a", Attempt.apple "b"], .ok (.downloadedApple "b")) :=
  (C8_download_attempt_order { movie := some ⟨"/d/m.mkv", 1800⟩ }
      (some "42") none none none ["a", "b"] ["c"]
      (fun l => decide (l = "b")) (fun _ => true) ⟨0, 0, 0⟩ rfl rfl rfl).1 "b" (by decide)

/-- Each invocation of the orchestrator changes the counters in exactly
one of four ways, correlated with how it terminates. -/
theorem runOne_delta (c : Counters) (inv : Invocation) :
    ((runOne c inv).1 = c ∧
       ((runOne c inv).2.2 = .ok .invalidPath ∨ (runOne c inv).2.2 = .ok .noMovie ∨
        ∃ e, (runOne c inv).2.2 = .error e)) ∨
    ((runOne c inv).1 = { c with directoriesScanned := c.directoriesScanned + 1 } ∧
       ((runOne c inv).2.2 = .ok .notFound ∨ ∃ e, (runOne c inv).2.2 = .error e)) ∨
    ((runOne c inv).1 = { c with directoriesScanned := c.directoriesScanned + 1,
                                 trailersFound := c.trailersFound + 1 } ∧
       (runOne c inv).2.2 = .ok .alreadyFound) ∨
    ((runOne c inv).1 = { c with directoriesScanned := c.directoriesScanned + 1,
                                 trailersDownloaded := c.trailersDownloaded + 1 } ∧
       ∃ l, (runOne c inv).2.2 = .ok (.downloadedApple l) ∨
            (runOne c inv).2.2 = .ok (.downloadedYT l)) := by
  unfold runOne get_Trailer
  split
  · exact Or.inl ⟨rfl, Or.inl rfl⟩
  · split
    · exact Or.inl ⟨rfl, Or.inr (Or.inr ⟨_, rfl⟩)⟩
    · split
      · exact Or.inl ⟨rfl, Or.inr (Or.inl rfl)⟩
      · split
        · exact Or.inr (Or.inr (Or.inl ⟨rfl, rfl⟩))
        · split
          · exact Or.inr (Or.inl ⟨rfl, Or.inr ⟨_, rfl⟩⟩)
          · dsimp only
            split
            · exact Or.inr (Or.inr (Or.inr ⟨rfl, _, Or.inl rfl⟩))
            · split
              · exact Or.inr (Or.inr (Or.inr ⟨rfl, _, Or.inr rfl⟩))
              · exact Or.inr (Or.inl ⟨rfl, Or.inl rfl⟩)

/-- One invocation preserves `downloaded + found ≤ scanned`. -/
theorem runOne_mono (c : Counters) (inv : Invocation)
    (h : c.trailersDownloaded + c.trailersFound ≤ c.directoriesScanned) :
    (runOne c inv).1.trailersDownloaded + (runOne c inv).1.trailersFound
      ≤ (runOne c inv).1.directoriesScanned := by
  rcases runOne_delta c inv with ⟨h1, _⟩ | ⟨h1, _⟩ | ⟨h1, _⟩ | ⟨h1, _⟩ <;> rw [h1]
  · exact h
  · dsimp only
    omega
  · dsimp only
    omega
  · dsimp only
    omega

/-- Any sequence of invocations preserves `downloaded + found ≤ scanned`. -/
theorem runAll_mono (invs : List Invocation) :
    ∀ c : Counters, c.trailersDownloaded + c.trailersFound ≤ c.directoriesScanned →
      (runAll c invs).trailersDownloaded + (runAll c invs).trailersFound
        ≤ (runAll c invs).directoriesScanned := by
  induction invs with
  | nil => intro c h; exact h
  | cons inv rest ih =>
    intro c h
    simp only [runAll, List.foldl_cons]
    have := ih (runOne c inv).1 (runOne_mono c inv h)
    simpa [runAll] using this

/-- C7 counterexample: an invocation whose folder classification raises
(`uniqueid` sidecar element without a `type` attribute) terminates in
neither the invalid-path nor the no-movie state, yet leaves every counter
unchanged — the claim instead requires every other terminal state to
increment the scanned counter by exactly 1. -/
theorem C7_exception_counterexample :
    runOne ⟨0, 0, 0⟩
      { pathIsDir := true,
        folder := scan (fun _ => 1800) "/d"
          [.file ⟨"m.nfo", 10, .items [⟨"uniqueid", [], none⟩]⟩] }
      = (⟨0, 0, 0⟩, [], .error .keyError) := by
  rfl

/-- C7 amended: invalid-path and no-movie terminations change no counter;
the already-found termination increments scanned and found by exactly 1;
a successful download increments scanned and downloaded by exactly 1;
candidate exhaustion increments scanned only; an invocation aborted by an
escaping exception increments either nothing (exception during folder
classification) or scanned only (exception during metadata resolution);
and after any sequence of invocations started from zeroed counters,
`downloaded + found ≤ scanned` holds, so the reported
`missing = scanned − (downloaded + found)` is the exact count of scanned
folders that ended with neither a found nor a downloaded trailer. -/
theorem C7_counter_discipline (c : Counters) (inv : Invocation) (invs : List Invocation) :
    ((runOne c inv).2.2 = .ok .invalidPath → (runOne c inv).1 = c) ∧
    ((runOne c inv).2.2 = .ok .noMovie → (runOne c inv).1 = c) ∧
    ((runOne c inv).2.2 = .ok .alreadyFound →
        (runOne c inv).1 = { c with directoriesScanned := c.directoriesScanned + 1,
                                    trailersFound := c.trailersFound + 1 }) ∧
    (∀ l, ((runOne c inv).2.2 = .ok (.downloadedApple l) ∨
           (runOne c inv).2.2 = .ok (.downloadedYT l)) →
        (runOne c inv).1 = { c with directoriesScanned := c.directoriesScanned + 1,
                                    trailersDownloaded := c.trailersDownloaded + 1 }) ∧
    ((runOne c inv).2.2 = .ok .notFound →
        (runOne c inv).1 = { c with directoriesScanned := c.directoriesScanned + 1 }) ∧
    (∀ e, (runOne c inv).2.2 = .error e →
        (runOne c inv).1 = c ∨
        (runOne c inv).1 = { c with directoriesScanned := c.directoriesScanned + 1 }) ∧
    (runAll ⟨0, 0, 0⟩ invs).trailersDownloaded + (runAll ⟨0, 0, 0⟩ invs).trailersFound
        ≤ (runAll ⟨0, 0, 0⟩ invs).directoriesScanned ∧
    missingTrailers (runAll ⟨0, 0, 0⟩ invs)
      = ((runAll ⟨0, 0, 0⟩ invs).directoriesScanned : Int)
        - (((runAll ⟨0, 0, 0⟩ invs).trailersDownloaded : Int)
           + ((runAll ⟨0, 0, 0⟩ invs).trailersFound : Int)) := by
  refine ⟨?_, ?_, ?_, ?_, ?_, ?_, runAll_mono invs ⟨0, 0, 0⟩ (by simp), rfl⟩
  · intro h
    rcases runOne_delta c inv with ⟨h1, h2 | h2 | ⟨e, h2⟩⟩ | ⟨h1, h2 | ⟨e, h2⟩⟩ |
      ⟨h1, h2⟩ | ⟨h1, l2, h2 | h2⟩ <;> simp_all
  · intro h
    rcases runOne_delta c inv with ⟨h1, h2 | h2 | ⟨e, h2⟩⟩ | ⟨h1, h2 | ⟨e, h2⟩⟩ |
      ⟨h1, h2⟩ | ⟨h1, l2, h2 | h2⟩ <;> simp_all
  · intro h
    rcases runOne_delta c inv with ⟨h1, h2 | h2 | ⟨e, h2⟩⟩ | ⟨h1, h2 | ⟨e, h2⟩⟩ |
      ⟨h1, h2⟩ | ⟨h1, l2, h2 | h2⟩ <;> simp_all
  · intro l h
    rcases h with h | h <;>
      rcases runOne_delta c inv with ⟨h1, h2 | h2 | ⟨e, h2⟩⟩ | ⟨h1, h2 | ⟨e, h2⟩⟩ |
        ⟨h1, h2⟩ | ⟨h1, l2, h2 | h2⟩ <;> simp_all
  · intro h
    rcases runOne_delta c inv with ⟨h1, h2 | h2 | ⟨e, h2⟩⟩ | ⟨h1, h2 | ⟨e, h2⟩⟩ |
      ⟨h1, h2⟩ | ⟨h1, l2, h2 | h2⟩ <;> simp_all
  · intro e h
    rcases runOne_delta c inv with ⟨h1, h2 | h2 | ⟨e2, h2⟩⟩ | ⟨h1, h2 | ⟨e2, h2⟩⟩ |
      ⟨h1, h2⟩ | ⟨h1, l2, h2 | h2⟩ <;> simp_all

/-- Witness for `C7_counter_discipline`: an invalid-path invocation leaves
the counters unchanged. -/
theorem C7_counter_discipline_witness :
    (runOne ⟨0, 0, 0⟩ { pathIsDir := false, folder := .ok ({} : MovieFolderSt) }).1
      = ⟨0, 0, 0⟩ :=
  (C7_counter_discipline ⟨0, 0, 0⟩ { pathIsDir := false, folder := .ok {} } []).1 rfl

end TrailerTech
